import Mathlib

/-!
Shallow embedding of the combat/narrative reconciliation core of the
fastapi-backend RPG server: `app/models.py`, `app/utils/combat.py`,
`app/utils/cheats.py`, `app/services/llm_service.py` and
`app/services/gameplay_service.py` (the free-mode path).

Modelling conventions:
- Python ints are unbounded, so they are modelled as `Int`.
- `random.randint(lo, hi)` is modelled by reading an arbitrary stream
  `g : Nat -> Nat` of raw draws at an explicit index and reducing the raw
  value into `[lo, hi]`; every reachable sequence of draws of the source
  corresponds to some `g`, and the index threading follows the call order
  of the source.
- The float expressions of the source (`int(avg_health * 0.15)` in
  `resolve_effect`, `int(base * 0.7)` / `int(base * 1.3)` in the `vary`
  helper) are modelled by exact truncated rational arithmetic via
  `Int.tdiv`.  A double-rounding analysis of CPython binary64 arithmetic
  shows: for `* 0.15` the two agree for all operands of magnitude below
  10^12; for `* 1.3` they agree on that whole range as well; for `* 0.7`
  the first base where CPython truncates one lower than the exact value is
  90 (then 170, ...).  No concrete input used in this development touches
  a disagreeing operand.
- The narrative oracle (Gemini) is an external black box: each oracle call
  site takes its (already schema-validated) response as an explicit
  parameter of type `Option LLMFreeOutcome`, where `none` models a raised
  error or an unparseable response and `some out` a successfully parsed
  one.
- `beanie` persistence is modelled by carrying the turn documents of a
  campaign directly as a list (`Campaign.turns`); saving a document is
  replacing it in that list.
-/

namespace RPG

/-- app/models.py `EffectType`. -/
inductive EffectType where
  | damage
  | heal
deriving DecidableEq

/-- app/models.py `AttributeSet` (the character's four stats). -/
structure AttributeSet where
  strength : Int
  dexterity : Int
  intelligence : Int
  charisma : Int
deriving DecidableEq

/-- app/models.py `CombatAttributes` (same four stats on a combat side). -/
structure CombatAttributes where
  strength : Int
  dexterity : Int
  intelligence : Int
  charisma : Int
deriving DecidableEq

/-- app/models.py `CombatSide`. -/
structure CombatSide where
  health : Int
  max_health : Option Int := none
  attributes : CombatAttributes
  roll : Int
deriving DecidableEq

/-- app/models.py `CombatStateModel`. -/
structure CombatStateModel where
  player : CombatSide
  enemy : CombatSide
  chosen_attribute : Option String := none
  player_total : Option Int := none
  enemy_total : Option Int := none
deriving DecidableEq

/-- app/models.py `Effect` (the resolved, trusted form). -/
structure Effect where
  type : EffectType
  target : String
  value : Option Int := none
deriving DecidableEq

/-- app/models.py `LLMEffect`: an oracle effect intent carries only a type;
the schema itself strips any other field the oracle may have populated. -/
structure LLMEffect where
  type : EffectType
deriving DecidableEq

/-- app/models.py `EnemyDefeatedReward`. -/
structure EnemyDefeatedReward where
  gainedExperience : Option Int := none
  loot : List String := []
deriving DecidableEq

/-- app/models.py `Character` (the fields the combat core reads or writes;
identity and campaign-bookkeeping fields are omitted). -/
structure Character where
  name : String
  attributes : AttributeSet
  max_health : Int
  current_health : Int
deriving DecidableEq

/-- app/models.py `Turn` (without `created_at`, which the core never touches). -/
structure Turn where
  turn_number : Nat
  user_input : String
  narrative : String
  effects : List Effect
  character_health : Int
  enemy_health : Int
  combat_state : Option CombatStateModel := none
  active_combat : Bool := false
  enemy_defeated_reward : EnemyDefeatedReward := {}
  suggested_actions : List String := []
deriving DecidableEq

/-- app/models.py `Campaign`, restricted to the free-mode turn history; the
list holds the turn documents the id list of the source points at. -/
structure Campaign where
  turns : List Turn
deriving DecidableEq

/-- app/models.py `FreeActionOut`.  The source's `CombatStateOut` mirrors
`CombatStateModel` field for field, so the same structure is reused here. -/
structure FreeActionOut where
  narrative : String
  effects : List Effect
  character_health : Int
  enemy_health : Int
  combat_state : Option CombatStateModel := none
  active_combat : Bool
  enemy_defeated_reward : EnemyDefeatedReward
  turn_number : Nat
  suggested_actions : List String
deriving DecidableEq

/-- app/services/llm_service.py `LLMFreeOutcome`.  `enemy_defeated_reward`
is kept as an `Option` so that the source's defensive `is None` repairs can
be written as they stand (pydantic validation makes `none` impossible for a
parsed response, but the code still checks). -/
structure LLMFreeOutcome where
  narrative : String
  effects : List LLMEffect := []
  enemy_health : Option Int := none
  combat_state : Option CombatStateModel := none
  enemy_defeated_reward : Option EnemyDefeatedReward := some {}
  active_combat : Option Bool := some false
  suggested_actions : List String := []
deriving DecidableEq

/-! ### app/utils/combat.py -/

/-- Python truthiness fallback `mh or h` as used on an optional health:
`None` and `0` are falsy, any other int is returned as is. -/
def pyOrHealth (mh : Option Int) (h : Int) : Int :=
  match mh with
  | none => h
  | some m => if m = 0 then h else m

/-- Lines 84-88 of combat.py: `avg_health = (player_max + enemy_max) / 2`;
`value = max(1, int(avg_health * 0.15))`.  `int()` truncates toward zero,
so the value is the toward-zero truncation of `3 * (player_max + enemy_max)
/ 40`, which `Int.tdiv` computes exactly (see the header note on floats). -/
def effect_magnitude (attacker defender : CombatSide) : Int :=
  let player_max := pyOrHealth attacker.max_health attacker.health
  let enemy_max := pyOrHealth defender.max_health defender.health
  max 1 (Int.tdiv ((player_max + enemy_max) * 3) 40)

/-- combat.py `resolve_effect`.  The trailing
`return Effect(type=effect_type, target="none", value=0)` of the source is
unreachable with the two-value `EffectType` enum. -/
def resolve_effect (effect_type : EffectType) (attacker defender : CombatSide)
    (player_total enemy_total : Int) : Effect :=
  let value := effect_magnitude attacker defender
  match effect_type with
  | EffectType.damage =>
    if enemy_total < player_total then
      { type := EffectType.damage, target := "enemy", value := some value }
    else if player_total < enemy_total then
      { type := EffectType.damage, target := "self", value := some value }
    else
      { type := EffectType.damage, target := "none", value := some 0 }
  | EffectType.heal =>
    if enemy_total < player_total then
      { type := EffectType.heal, target := "self", value := some value }
    else if player_total < enemy_total then
      { type := EffectType.damage, target := "self", value := some value }
    else
      { type := EffectType.heal, target := "none", value := some 0 }

/-- Modelled from the spec (section 4.3, for comparison with the source's
`resolve_effect`): magnitude = `max(1, round(0.15 * average(a, d)))`, with
`a`, `d` each side's "max_or_current_health". -/
def specMagnitude (attacker defender : CombatSide) : Int :=
  let a := attacker.max_health.getD attacker.health
  let d := defender.max_health.getD defender.health
  max 1 (round (((a + d : Int) : ℚ) / 2 * (15 / 100)))

/-- One draw of `random.randint(lo, hi)` (both endpoints included), taken
from the raw stream `g` at index `n`. -/
def randint (lo hi : Int) (g : Nat → Nat) (n : Nat) : Int :=
  lo + (g n : Int) % (hi - lo + 1)

/-- combat.py `vary` lower bound: `max(1, int(base * (1 - 0.30)))`. -/
def varyLow (base : Int) : Int :=
  max 1 (Int.tdiv (base * 7) 10)

/-- combat.py `vary` upper bound: `max(low, int(base * (1 + 0.30)))`. -/
def varyHigh (base : Int) : Int :=
  max (varyLow base) (Int.tdiv (base * 13) 10)

/-- combat.py `vary`: one jittered draw around `base` with 30% variance. -/
def vary (base : Int) (g : Nat → Nat) (n : Nat) : Int :=
  randint (varyLow base) (varyHigh base) g n

/-- The dict returned by combat.py `estimate_enemy_baseline`. -/
structure EnemyBaseline where
  health : Int
  max_health : Int
  attributes : CombatAttributes
deriving DecidableEq

/-- combat.py `estimate_enemy_baseline`: four attribute draws at indices
`n`..`n+3`; the health draw at `n+4` only happens when no
`last_enemy_health` is supplied. -/
def estimate_enemy_baseline (c : Character) (last_enemy_health : Option Int)
    (g : Nat → Nat) (n : Nat) : EnemyBaseline :=
  let enemy_attrs : CombatAttributes :=
    { strength := vary c.attributes.strength g n
      dexterity := vary c.attributes.dexterity g (n + 1)
      intelligence := vary c.attributes.intelligence g (n + 2)
      charisma := vary c.attributes.charisma g (n + 3) }
  let enemy_health :=
    match last_enemy_health with
    | some lh => max 0 lh
    | none => vary c.max_health g (n + 4)
  { health := enemy_health, max_health := enemy_health, attributes := enemy_attrs }

/-- combat.py `build_combat_state` as called by the free-mode orchestrator
(`enemy_state=None`): baseline draws at `n`..`n+4`, then the two initial
rolls at `n+5` and `n+6`. -/
def build_combat_state (c : Character) (g : Nat → Nat) (n : Nat) : CombatStateModel :=
  let eb := estimate_enemy_baseline c none g n
  { player :=
      { health := c.current_health
        max_health := some c.max_health
        attributes :=
          { strength := c.attributes.strength
            dexterity := c.attributes.dexterity
            intelligence := c.attributes.intelligence
            charisma := c.attributes.charisma }
        roll := randint 1 20 g (n + 5) }
    enemy :=
      { health := eb.health
        max_health := some eb.max_health
        attributes := eb.attributes
        roll := randint 1 20 g (n + 6) } }

/-- combat.py `refresh_rolls`: overwrite both rolls with fresh draws at
indices `n` and `n+1`. -/
def refresh_rolls (cs : CombatStateModel) (g : Nat → Nat) (n : Nat) : CombatStateModel :=
  { cs with
    player := { cs.player with roll := randint 1 20 g n }
    enemy := { cs.enemy with roll := randint 1 20 g (n + 1) } }

/-! ### app/services/llm_service.py (adapter and knockout paths)

Each function takes the oracle's response as `Option LLMFreeOutcome`:
`none` models a raised error (server error, unparseable JSON, schema
violation), `some out` a successfully validated response. -/

/-- The fallback outcome built in the `except` branch of
`generate_free_narrative`. -/
def fallback_free : LLMFreeOutcome :=
  { narrative := "You act, but nothing conclusive happens."
    effects := []
    combat_state := none
    active_combat := some false
    enemy_health := none
    enemy_defeated_reward := some { gainedExperience := none, loot := [] }
    suggested_actions := [] }

/-- The normalization block of `generate_free_narrative` (lines 359-382):
repair a missing reward, force `active_combat` to a real bool, and clear
`combat_state` / `enemy_health` on a non-combat turn.  The effect-value
strip and the suggested-actions repair of the source are identities here:
`LLMEffect` carries only a type and `suggested_actions` is a plain list. -/
def normalize_free (out : LLMFreeOutcome) : LLMFreeOutcome :=
  let out1 := { out with
    enemy_defeated_reward := some (out.enemy_defeated_reward.getD {}) }
  let ac := out1.active_combat.getD false
  let out2 := { out1 with active_combat := some ac }
  if ac then out2 else { out2 with combat_state := none, enemy_health := none }

/-- llm_service.py `generate_free_narrative`. -/
def generate_free_narrative (resp : Option LLMFreeOutcome) : LLMFreeOutcome :=
  match resp with
  | some out => normalize_free out
  | none => fallback_free

/-- llm_service.py `player_knocked_out`: enforce
`active_combat=False, combat_state=None, enemy_health=None` on a parsed
response (repairing a missing reward), or return the survival fallback. -/
def player_knocked_out (resp : Option LLMFreeOutcome) : LLMFreeOutcome :=
  match resp with
  | some out =>
    let out1 := { out with
      active_combat := some false
      combat_state := none
      enemy_health := none }
    { out1 with enemy_defeated_reward := some (out1.enemy_defeated_reward.getD {}) }
  | none =>
    { narrative := "You collapse into darkness, but fate spares your life. Someone finds you before it is too late."
      effects := []
      combat_state := none
      active_combat := some false
      enemy_health := none
      enemy_defeated_reward := some { gainedExperience := none, loot := [] }
      suggested_actions := ["Recover your strength", "Plan your next step"] }

/-- llm_service.py `enemy_knocked_out`: enforce
`active_combat=False, combat_state=None` on a parsed response, replacing a
missing (`None`) reward - and only a missing one - by 10 experience and a
Gold Coin; or return the defeat fallback. -/
def enemy_knocked_out (resp : Option LLMFreeOutcome) : LLMFreeOutcome :=
  match resp with
  | some out =>
    let out1 := { out with
      active_combat := some false
      combat_state := none }
    { out1 with
      enemy_defeated_reward :=
        some (out1.enemy_defeated_reward.getD
          { gainedExperience := some 10, loot := ["Gold Coin"] }) }
  | none =>
    { narrative := "The enemy crumples to the ground, defeated once and for all."
      effects := []
      combat_state := none
      active_combat := some false
      enemy_health := some 0
      enemy_defeated_reward := some { gainedExperience := some 10, loot := ["Gold Coin"] }
      suggested_actions := ["Collect your reward", "Search the area"] }

/-! ### app/services/gameplay_service.py `process_free_action` (main path) -/

/-- Lines 145-165: the continuation test on the most recent turn - its
snapshot qualifies when both recorded healths are positive and the turn
still has active combat. -/
def lastCombatStateOf (cam : Campaign) : Option CombatStateModel :=
  match cam.turns.getLast? with
  | none => none
  | some t =>
    match t.combat_state with
    | none => none
    | some cs =>
      if 0 < cs.player.health ∧ 0 < cs.enemy.health ∧ t.active_combat then some cs
      else none

/-- Lines 167-177: reuse the qualifying snapshot, otherwise scaffold a
fresh state from the live character (note: the source passes no prior
enemy health to `build_combat_state`); then refresh both rolls.  The
scaffold consumes draws 0-6, so its refresh draws sit at indices 7-8. -/
def startingCombatState (cam : Campaign) (c : Character) (g : Nat → Nat) : CombatStateModel :=
  match lastCombatStateOf cam with
  | some cs => refresh_rolls cs g 0
  | none => refresh_rolls (build_combat_state c g 0) g 7

/-- Lines 192-197 `_fresh_totals`: read the totals from the oracle's
returned combat state, falling back to that state's echoed roll fields,
or `(0, 0)` when the oracle returned no combat state. -/
def freshTotals (cs : Option CombatStateModel) : Int × Int :=
  match cs with
  | none => (0, 0)
  | some c => (c.player_total.getD c.player.roll, c.enemy_total.getD c.enemy.roll)

/-- Lines 207-235, one iteration: resolve the intent against the backend
combat state and the supplied totals, skip no-ops, apply to the running
`(player_hp, enemy_hp)` pair with clamping, and accumulate the resolved
effect.  The heal-targeting-enemy arm mirrors
`min(combat_state.enemy.max_health, enemy_hp + value)`; `resolve_effect`
never produces that combination, and on a side without `max_health` the
source would raise there, modelled as an unclamped add. -/
def applyEffectStep (c : Character) (cs : CombatStateModel) (pt et : Int)
    (st : Int × Int × List Effect) (e : LLMEffect) : Int × Int × List Effect :=
  let resolved := resolve_effect e.type cs.player cs.enemy pt et
  let v := resolved.value.getD 0
  if resolved.target = "none" ∨ v ≤ 0 then st
  else
    let player_hp := st.1
    let enemy_hp := st.2.1
    let acc := st.2.2
    if resolved.target = "self" then
      (max 0 (min c.max_health
          (player_hp + (if resolved.type = EffectType.heal then v else -v))),
       enemy_hp, acc ++ [resolved])
    else if resolved.target = "enemy" then
      let enemy_hp1 :=
        if resolved.type = EffectType.heal then
          match cs.enemy.max_health with
          | some m => min m (enemy_hp + v)
          | none => enemy_hp + v
        else max 0 (enemy_hp - v)
      (player_hp, enemy_hp1, acc ++ [resolved])
    else (player_hp, enemy_hp, acc ++ [resolved])

/-- Lines 202-235: fold the oracle's effect intents over the pair
`(character.current_health, combat_state.enemy.health)`, accumulating the
computed effects. -/
def applyEffects (c : Character) (cs : CombatStateModel) (pt et : Int)
    (effects : List LLMEffect) : Int × Int × List Effect :=
  effects.foldl (applyEffectStep c cs pt et) (c.current_health, cs.enemy.health, [])

/-- Lines 246-257: write the computed healths into the oracle-returned
combat state, then clamp each side into `[0, max_health]` where its
`max_health` is set. -/
def syncAndClamp (csOut : CombatStateModel) (player_hp enemy_hp : Int) : CombatStateModel :=
  let cs0 := { csOut with
    player := { csOut.player with health := player_hp }
    enemy := { csOut.enemy with health := enemy_hp } }
  let cs1 :=
    match cs0.player.max_health with
    | some m => { cs0 with player := { cs0.player with health := max 0 (min m cs0.player.health) } }
    | none => cs0
  match cs1.enemy.max_health with
  | some m => { cs1 with enemy := { cs1.enemy with health := max 0 (min m cs1.enemy.health) } }
  | none => cs1

/-- The normalized primary oracle outcome of the turn. -/
def turnLLM (o : Option LLMFreeOutcome) : LLMFreeOutcome :=
  generate_free_narrative o

/-- The totals the orchestrator passes to `resolve_effect` this turn. -/
def turnTotals (o : Option LLMFreeOutcome) : Int × Int :=
  freshTotals (turnLLM o).combat_state

/-- The `(player_hp, enemy_hp, computed_effects)` triple after the effect
loop of this turn. -/
def turnApplied (cam : Campaign) (c : Character) (g : Nat → Nat)
    (o : Option LLMFreeOutcome) : Int × Int × List Effect :=
  applyEffects c (startingCombatState cam c g) (turnTotals o).1 (turnTotals o).2
    (turnLLM o).effects

/-- The oracle-returned combat state after the sync-and-clamp step
(lines 246-257); `none` when the oracle returned no combat state. -/
def turnCsOut0 (cam : Campaign) (c : Character) (g : Nat → Nat)
    (o : Option LLMFreeOutcome) : Option CombatStateModel :=
  (turnLLM o).combat_state.map
    (fun cso => syncAndClamp cso (turnApplied cam c g o).1 (turnApplied cam c g o).2.1)

/-- Lines 259-267, the knockout check: the resulting
`(character, llm_outcome, cs_out)` triple.  A player knockout resets the
character to full health and reruns the oracle on the player-KO path; an
enemy knockout (only tested when a combat state survived) reruns it on the
enemy-KO path. -/
def turnKO (cam : Campaign) (c : Character) (g : Nat → Nat)
    (o kp ke : Option LLMFreeOutcome) :
    Character × LLMFreeOutcome × Option CombatStateModel :=
  let player_hp := (turnApplied cam c g o).1
  if player_hp ≤ 0 then
    ({ c with current_health := c.max_health },
     player_knocked_out kp, (player_knocked_out kp).combat_state)
  else if (match turnCsOut0 cam c g o with
           | some cso => decide (cso.enemy.health ≤ 0)
           | none => false) then
    ({ c with current_health := player_hp },
     enemy_knocked_out ke, (enemy_knocked_out ke).combat_state)
  else
    ({ c with current_health := player_hp }, turnLLM o, turnCsOut0 cam c g o)

/-- Lines 277-295: the persisted `Turn` record of this action. -/
def finalTurn (cam : Campaign) (c : Character) (action : String) (g : Nat → Nat)
    (o kp ke : Option LLMFreeOutcome) : Turn :=
  let k := turnKO cam c g o kp ke
  { turn_number := cam.turns.length + 1
    user_input := action
    narrative := k.2.1.narrative
    effects := (turnApplied cam c g o).2.2
    character_health := k.1.current_health
    enemy_health := match k.2.2 with | some cso => cso.enemy.health | none => 0
    combat_state := k.2.2
    active_combat :=
      match k.2.2 with
      | some cso => decide (0 < k.1.current_health) && decide (0 < cso.enemy.health)
      | none => false
    enemy_defeated_reward := k.2.1.enemy_defeated_reward.getD {}
    suggested_actions := k.2.1.suggested_actions }

/-- The result of the non-cheat path of `process_free_action`: the saved
character, the inserted turn (appended to the campaign), and the
`FreeActionOut` payload echoed to the caller (lines 301-313). -/
structure FreeActionResult where
  campaign : Campaign
  character : Character
  turn : Turn
  out : FreeActionOut
deriving DecidableEq

/-- gameplay_service.py `process_free_action`, non-cheat path
(lines 142-313). -/
def process_free_action_free (cam : Campaign) (c : Character) (action : String)
    (g : Nat → Nat) (o kp ke : Option LLMFreeOutcome) : FreeActionResult :=
  let t := finalTurn cam c action g o kp ke
  { campaign := { turns := cam.turns ++ [t] }
    character := (turnKO cam c g o kp ke).1
    turn := t
    out :=
      { narrative := t.narrative
        effects := t.effects
        character_health := t.character_health
        enemy_health := t.enemy_health
        combat_state := t.combat_state
        active_combat := t.active_combat
        enemy_defeated_reward := t.enemy_defeated_reward
        turn_number := t.turn_number
        suggested_actions := t.suggested_actions } }

/-! ### app/utils/cheats.py and the cheat branches of `process_free_action` -/

/-- cheats.py `cheat_set_player_health_to_one`: a no-op without turns or
when the last turn has no active combat; otherwise set the live
character's health, the player health inside the last turn's snapshot (if
one exists) and the last turn's flat `character_health` field to 1.  The
source's dict-vs-model branching collapses here because snapshots are
always `CombatStateModel`.  Saving the patched last turn is modelled by
replacing the last list element. -/
def cheat_set_player_health_to_one (cam : Campaign) (c : Character) :
    Campaign × Character :=
  match cam.turns.getLast? with
  | none => (cam, c)
  | some lt =>
    if lt.active_combat then
      let c1 := { c with current_health := 1 }
      let lt1 := { lt with
        combat_state := lt.combat_state.map
          (fun cs => { cs with player := { cs.player with health := 1 } })
        character_health := 1 }
      ({ turns := cam.turns.dropLast ++ [lt1] }, c1)
    else (cam, c)

/-- cheats.py `cheat_set_enemy_health_to_one`, same shape on the enemy
side (the live character is untouched). -/
def cheat_set_enemy_health_to_one (cam : Campaign) : Campaign :=
  match cam.turns.getLast? with
  | none => cam
  | some lt =>
    if lt.active_combat then
      let lt1 := { lt with
        combat_state := lt.combat_state.map
          (fun cs => { cs with enemy := { cs.enemy with health := 1 } })
        enemy_health := 1 }
      { turns := cam.turns.dropLast ++ [lt1] }
    else cam

/-- The cheat branch's result: no turn is inserted; only the (possibly
patched) campaign, the (possibly patched) character and the response. -/
structure CheatResult where
  campaign : Campaign
  character : Character
  out : FreeActionOut
deriving DecidableEq

/-- gameplay_service.py lines 97-124, the `reducemylife` branch: run the
cheat, then re-read the enemy health from the (saved, hence possibly
patched) last turn - preferring its snapshot over the flat field - and
answer with a fixed acknowledgment whose `character_health` is the literal
1 and whose `turn_number` is the current turn count (no turn is created). -/
def reducemylife_branch (cam : Campaign) (c : Character) : CheatResult :=
  let r := cheat_set_player_health_to_one cam c
  let enemy_health : Int :=
    match r.1.turns.getLast? with
    | none => 0
    | some lt =>
      match lt.combat_state with
      | some cs => cs.enemy.health
      | none => lt.enemy_health
  { campaign := r.1
    character := r.2
    out :=
      { narrative := "Cheat activated: player health set to 1."
        effects := []
        character_health := 1
        enemy_health := enemy_health
        combat_state := none
        active_combat := false
        enemy_defeated_reward := { gainedExperience := none, loot := [] }
        turn_number := cam.turns.length
        suggested_actions := [] } }

/-- gameplay_service.py lines 126-140, the `reduceenemylife` branch. -/
def reduceenemylife_branch (cam : Campaign) (c : Character) : CheatResult :=
  let cam1 := cheat_set_enemy_health_to_one cam
  { campaign := cam1
    character := c
    out :=
      { narrative := "Cheat activated: enemy health set to 1."
        effects := []
        character_health := c.current_health
        enemy_health := 1
        combat_state := none
        active_combat := false
        enemy_defeated_reward := { gainedExperience := none, loot := [] }
        turn_number := cam.turns.length
        suggested_actions := [] } }

/-- gameplay_service.py `process_free_action`, top-level dispatch: the two
sentinel action strings short-circuit into the cheat branches (no turn
inserted, modelled by the `none` third component); everything else runs
the full pipeline. -/
def process_free_action (cam : Campaign) (c : Character) (action : String)
    (g : Nat → Nat) (o kp ke : Option LLMFreeOutcome) :
    Campaign × Character × Option Turn × FreeActionOut :=
  if action.trim.toLower = "reducemylife" then
    let r := reducemylife_branch cam c
    (r.campaign, r.character, none, r.out)
  else if action.trim.toLower = "reduceenemylife" then
    let r := reduceenemylife_branch cam c
    (r.campaign, r.character, none, r.out)
  else
    let r := process_free_action_free cam c action g o kp ke
    (r.campaign, r.character, some r.turn, r.out)

/-! ### Shared concrete sample data for witnesses and counterexamples -/

/-- A flat stream of raw draws: every `randint lo hi` yields `lo`. -/
def gzero : Nat → Nat := fun _ => 0

/-- A flat stream of raw draws: every `randint 1 20` yields 5. -/
def gfour : Nat → Nat := fun _ => 4

/-- All four stats at 30 (combat-side form). -/
def attrs30 : CombatAttributes := ⟨30, 30, 30, 30⟩

/-- All four stats at 30 (character form). -/
def attrSet30 : AttributeSet := ⟨30, 30, 30, 30⟩

/-- A healthy 30/30 character. -/
def char30 : Character :=
  { name := "Aria", attributes := attrSet30, max_health := 30, current_health := 30 }

/-! ### C1 - the resolver's magnitude formula -/

/-- C1, counterexample: with both sides at health 13 (no `max_health`) and a
winning matchup, the claimed value `max(1, round(0.15 * average)) =
max(1, round(1.95)) = 2`, but `resolve_effect` truncates (`int()`), giving
`max(1, 1) = 1`. -/
theorem C1_counterexample :
    (resolve_effect EffectType.damage ⟨13, none, attrs30, 5⟩ ⟨13, none, attrs30, 5⟩ 2 1).value
        = some 1 ∧
    specMagnitude ⟨13, none, attrs30, 5⟩ ⟨13, none, attrs30, 5⟩ = 2 := by
  constructor
  · decide
  · simp only [specMagnitude, Option.getD]
    norm_num [round_eq]

/-- C1 (amended): for every winning (non-tied) matchup the resolved value
equals `max(1, trunc(0.15 * average(a, d)))` - truncation toward zero, not
rounding - where `a` is the attacker's `max_health` if set and nonzero,
else its current health, and likewise `d` for the defender. -/
theorem C1_magnitude_on_decided_matchup (et : EffectType) (a d : CombatSide)
    (pt en : Int) (h : pt ≠ en) :
    (resolve_effect et a d pt en).value = some (effect_magnitude a d) := by
  rcases lt_or_gt_of_ne h with hlt | hgt
  · have h1 : ¬ en < pt := not_lt.mpr hlt.le
    cases et <;> simp [resolve_effect, h1, hlt]
  · cases et <;> simp [resolve_effect, hgt]

/-- C1, witness: the amended theorem at a concrete winning matchup; the
defender's `max_health` of 0 is falsy in Python, so its current health 11
is used: value = max(1, trunc(3 * 20 / 40)) = 1. -/
theorem C1_witness :
    ((2 : Int) ≠ 1) ∧
    (resolve_effect EffectType.damage ⟨9, none, attrs30, 1⟩ ⟨11, some 0, attrs30, 1⟩ 2 1).value
        = some 1 :=
  ⟨by decide,
   (C1_magnitude_on_decided_matchup EffectType.damage ⟨9, none, attrs30, 1⟩
      ⟨11, some 0, attrs30, 1⟩ 2 1 (by decide)).trans (by decide)⟩

/-! ### C4 - the resolver's target/type case table -/

/-- C4: for every matchup, a damage intent hits the enemy when the player
wins, hits the player when the enemy wins, and is a no-op on a tie; a heal
intent heals the player when the player wins, backfires into self-damage
of the same value a damage intent would have produced when the enemy wins,
and is a no-op on a tie. -/
theorem C4_resolve_cases (a d : CombatSide) (pt en : Int) :
    (en < pt →
      resolve_effect EffectType.damage a d pt en =
        { type := EffectType.damage, target := "enemy", value := some (effect_magnitude a d) } ∧
      resolve_effect EffectType.heal a d pt en =
        { type := EffectType.heal, target := "self", value := some (effect_magnitude a d) }) ∧
    (pt < en →
      resolve_effect EffectType.damage a d pt en =
        { type := EffectType.damage, target := "self", value := some (effect_magnitude a d) } ∧
      resolve_effect EffectType.heal a d pt en =
        { type := EffectType.damage, target := "self", value := some (effect_magnitude a d) }) ∧
    (pt = en →
      ((resolve_effect EffectType.damage a d pt en).target = "none" ∧
       (resolve_effect EffectType.damage a d pt en).value = some 0) ∧
      ((resolve_effect EffectType.heal a d pt en).target = "none" ∧
       (resolve_effect EffectType.heal a d pt en).value = some 0)) := by
  refine ⟨fun hgt => ?_, fun hlt => ?_, fun heq => ?_⟩
  · constructor <;> simp [resolve_effect, hgt]
  · have h1 : ¬ en < pt := not_lt.mpr hlt.le
    constructor <;> simp [resolve_effect, h1, hlt]
  · subst heq
    constructor <;> constructor <;> simp [resolve_effect]

/-- C4, witness: the player-wins row of the case table at a concrete
matchup with magnitude `max(1, trunc((40 + 20) * 3 / 40)) = 4`. -/
theorem C4_witness :
    resolve_effect EffectType.damage ⟨10, some 40, attrs30, 3⟩ ⟨20, some 20, attrs30, 4⟩ 9 2 =
      { type := EffectType.damage, target := "enemy", value := some 4 } ∧
    resolve_effect EffectType.heal ⟨10, some 40, attrs30, 3⟩ ⟨20, some 20, attrs30, 4⟩ 9 2 =
      { type := EffectType.heal, target := "self", value := some 4 } :=
  (C4_resolve_cases ⟨10, some 40, attrs30, 3⟩ ⟨20, some 20, attrs30, 4⟩ 9 2).1 (by decide)

/-! ### C9 - oracle failure fallback -/

/-- C9: when the oracle call raises or its response cannot be parsed,
`generate_free_narrative` returns (does not raise) the safe fallback: a
generic narrative, no effects, no combat state, `active_combat` false, no
enemy health, an empty reward and no suggested actions. -/
theorem C9_oracle_failure_fallback :
    generate_free_narrative none =
      { narrative := "You act, but nothing conclusive happens."
        effects := []
        enemy_health := none
        combat_state := none
        enemy_defeated_reward := some { gainedExperience := none, loot := [] }
        active_combat := some false
        suggested_actions := [] } := rfl

/-! ### C3 - continuation vs scaffold -/

/-- A prior turn whose combat ended (`active_combat = false`) but whose
snapshot still records an enemy at health 500. -/
def turnC3 : Turn :=
  { turn_number := 1, user_input := "x", narrative := "y",
    effects := [], character_health := 3, enemy_health := 500,
    combat_state := some
      { player := { health := 3, max_health := some 30, attributes := attrs30, roll := 2 },
        enemy := { health := 500, max_health := some 500, attributes := attrs30, roll := 2 } },
    active_combat := false }

/-- A campaign whose only turn is `turnC3`. -/
def camC3 : Campaign := { turns := [turnC3] }

/-- C3, counterexample: the prior enemy existed with last known health 500,
yet the scaffolded starting state draws a fresh jittered enemy health
(21 under the all-zero draw stream) - `process_free_action` never passes
the prior health to `build_combat_state`. -/
theorem C3_counterexample :
    ((camC3.turns.getLast?.bind (fun t => t.combat_state)).map (fun cs => cs.enemy.health)
        = some 500) ∧
    (startingCombatState camC3 char30 gzero).enemy.health = 21 := by
  exact ⟨by decide, by decide⟩

/-- C3 (amended): when the last turn has `active_combat = true` and its
snapshot shows both healths positive, that snapshot is reused with only
the rolls refreshed (enemy health preserved exactly); otherwise a fresh
combat state is scaffolded from the live character alone, with the enemy
health freshly jittered from the character's max health - the prior
enemy's last known health is not consulted. -/
theorem C3_continuation_or_fresh_scaffold (cam : Campaign) (c : Character) (g : Nat → Nat) :
    (∀ cs, lastCombatStateOf cam = some cs →
        startingCombatState cam c g = refresh_rolls cs g 0 ∧
        (startingCombatState cam c g).enemy.health = cs.enemy.health) ∧
    (lastCombatStateOf cam = none →
        startingCombatState cam c g = refresh_rolls (build_combat_state c g 0) g 7 ∧
        (startingCombatState cam c g).enemy.health = vary c.max_health g 4) := by
  constructor
  · intro cs h
    refine ⟨by simp [startingCombatState, h], ?_⟩
    simp [startingCombatState, h, refresh_rolls]
  · intro h
    refine ⟨by simp [startingCombatState, h], ?_⟩
    simp [startingCombatState, h, refresh_rolls, build_combat_state, estimate_enemy_baseline]

/-- C3, witness: on `camC3` (no qualifying snapshot) the scaffold branch of
the amended theorem applies: the starting enemy health is the fresh jitter
drawn from the character's max health. -/
theorem C3_witness :
    (lastCombatStateOf camC3 = none) ∧
    (startingCombatState camC3 char30 gzero).enemy.health = vary char30.max_health gzero 4 :=
  ⟨by decide, ((C3_continuation_or_fresh_scaffold camC3 char30 gzero).2 (by decide)).2⟩

/-! ### C2 - where the totals passed to the resolver come from -/

/-- A prior turn with a live combat snapshot (player 30/30, enemy 20/20),
both sides carrying the same attribute set. -/
def turnC2 : Turn :=
  { turn_number := 1, user_input := "x", narrative := "y", effects := [],
    character_health := 30, enemy_health := 20,
    combat_state := some
      { player := { health := 30, max_health := some 30, attributes := attrs30, roll := 7 },
        enemy := { health := 20, max_health := some 20, attributes := attrs30, roll := 9 } },
    active_combat := true }

/-- A campaign continuing the combat of `turnC2`. -/
def camC2 : Campaign := { turns := [turnC2] }

/-- An oracle response whose echoed combat state carries fabricated totals
100 vs 1 (and one damage intent). -/
def oC2 : Option LLMFreeOutcome := some
  { narrative := "strike", effects := [⟨EffectType.damage⟩], enemy_health := some 20,
    combat_state := some
      { player := { health := 30, max_health := some 30, attributes := attrs30, roll := 5 },
        enemy := { health := 20, max_health := some 20, attributes := attrs30, roll := 5 },
        chosen_attribute := some "strength", player_total := some 100, enemy_total := some 1 },
    enemy_defeated_reward := some {}, active_combat := some true, suggested_actions := [] }

/-- C2, counterexample: this turn's refreshed rolls are equal (5 and 5) and
the two sides carry identical attribute sets, so every total of the form
"refreshed roll + chosen attribute" ties, which per the resolver's tie rule
would yield no effect; yet the oracle's fabricated numeric totals (100 vs
1) are what the backend passes to `resolve_effect`, producing a damaging
effect on the enemy - so a numeric oracle field other than the effect type
did influence the resolved effect. -/
theorem C2_counterexample :
    (startingCombatState camC2 char30 gfour).player.roll =
      (startingCombatState camC2 char30 gfour).enemy.roll ∧
    (startingCombatState camC2 char30 gfour).player.attributes =
      (startingCombatState camC2 char30 gfour).enemy.attributes ∧
    turnTotals oC2 = (100, 1) ∧
    (process_free_action_free camC2 char30 "attack" gfour oC2 none none).turn.effects =
      [{ type := EffectType.damage, target := "enemy", value := some 3 }] := by
  exact ⟨by decide, by decide, by decide, by decide⟩

/-- C2 (amended): the totals passed to `resolve_effect` are read from the
oracle-returned combat state (its `player_total` / `enemy_total`, falling
back to that state's echoed rolls; `(0,0)` without one), not recomputed by
the backend; the resolved effects depend on the oracle outcome only
through the intent types and those totals (the sides - and hence the
magnitude - come from the backend state, and the schema strips every
other effect field). -/
theorem C2_effects_from_intents_and_oracle_totals (c : Character) (cs : CombatStateModel)
    (o1 o2 : LLMFreeOutcome) (heff : o1.effects = o2.effects)
    (htot : freshTotals o1.combat_state = freshTotals o2.combat_state) :
    applyEffects c cs (freshTotals o1.combat_state).1 (freshTotals o1.combat_state).2 o1.effects =
    applyEffects c cs (freshTotals o2.combat_state).1 (freshTotals o2.combat_state).2 o2.effects := by
  rw [heff, htot]

/-- The backend-side combat state shared by the C2 witness. -/
def csW2 : CombatStateModel :=
  { player := { health := 30, max_health := some 30, attributes := attrs30, roll := 5 },
    enemy := { health := 20, max_health := some 20, attributes := attrs30, roll := 5 } }

/-- First oracle outcome of the C2 witness: totals 8 vs 3. -/
def oW2a : LLMFreeOutcome :=
  { narrative := "a", effects := [⟨EffectType.damage⟩],
    combat_state := some
      { player := { health := 30, max_health := some 30, attributes := attrs30, roll := 5 },
        enemy := { health := 20, max_health := some 20, attributes := attrs30, roll := 5 },
        player_total := some 8, enemy_total := some 3 } }

/-- Second oracle outcome of the C2 witness: same intents and totals, every
other numeric field different. -/
def oW2b : LLMFreeOutcome :=
  { narrative := "b", effects := [⟨EffectType.damage⟩], enemy_health := some 77,
    combat_state := some
      { player := { health := 1, max_health := some 9, attributes := attrs30, roll := 17 },
        enemy := { health := 2, max_health := some 8, attributes := attrs30, roll := 18 },
        player_total := some 8, enemy_total := some 3 } }

/-- C2, witness: two oracle outcomes agreeing on the intent list and on the
totals carried by their combat states, but on nothing else numeric, yield
identical resolved effects and post-application healths. -/
theorem C2_witness :
    (oW2a.effects = oW2b.effects) ∧
    (freshTotals oW2a.combat_state = freshTotals oW2b.combat_state) ∧
    applyEffects char30 csW2 (freshTotals oW2a.combat_state).1
        (freshTotals oW2a.combat_state).2 oW2a.effects =
      applyEffects char30 csW2 (freshTotals oW2b.combat_state).1
        (freshTotals oW2b.combat_state).2 oW2b.effects :=
  ⟨by decide, by decide,
   C2_effects_from_intents_and_oracle_totals char30 csW2 oW2a oW2b (by decide) (by decide)⟩

/-! ### C5 - player knockout resets -/

/-- Both branches of the player-KO narrative path clear the combat state. -/
lemma player_knocked_out_clears_combat_state (resp : Option LLMFreeOutcome) :
    (player_knocked_out resp).combat_state = none := by
  cases resp <;> rfl

/-- C5: whenever applying the accumulated resolved effects leaves the
character's health at 0 or below, the turn ends with the persisted
character health reset to `max_health`, the persisted turn's
`combat_state` cleared to `none`, and `active_combat` false. -/
theorem C5_player_knockout_resets (cam : Campaign) (c : Character) (action : String)
    (g : Nat → Nat) (o kp ke : Option LLMFreeOutcome)
    (h : (turnApplied cam c g o).1 ≤ 0) :
    (process_free_action_free cam c action g o kp ke).character.current_health = c.max_health ∧
    (process_free_action_free cam c action g o kp ke).turn.combat_state = none ∧
    (process_free_action_free cam c action g o kp ke).turn.active_combat = false := by
  have hk : turnKO cam c g o kp ke =
      ({ c with current_health := c.max_health }, player_knocked_out kp,
        (player_knocked_out kp).combat_state) := by
    unfold turnKO
    rw [if_pos h]
  refine ⟨?_, ?_, ?_⟩ <;>
    simp [process_free_action_free, finalTurn, hk, player_knocked_out_clears_combat_state]

/-- A prior turn: the player fights at 3/30 against an enemy at 20/20,
combat active. -/
def turnC5 : Turn :=
  { turn_number := 1, user_input := "x", narrative := "y", effects := [],
    character_health := 3, enemy_health := 20,
    combat_state := some
      { player := { health := 3, max_health := some 30, attributes := attrs30, roll := 1 },
        enemy := { health := 20, max_health := some 20, attributes := attrs30, roll := 1 } },
    active_combat := true }

/-- A campaign continuing the combat of `turnC5`. -/
def camC5 : Campaign := { turns := [turnC5] }

/-- The 3/30 character matching `turnC5`. -/
def charC5 : Character :=
  { name := "Bel", attributes := attrSet30, max_health := 30, current_health := 3 }

/-- An oracle response whose totals 1 vs 10 make the enemy win the single
damage intent: the player takes the magnitude 3 and drops from 3 to 0. -/
def oC5 : Option LLMFreeOutcome := some
  { narrative := "hit", effects := [⟨EffectType.damage⟩], enemy_health := some 20,
    combat_state := some
      { player := { health := 3, max_health := some 30, attributes := attrs30, roll := 1 },
        enemy := { health := 20, max_health := some 20, attributes := attrs30, roll := 1 },
        chosen_attribute := some "strength", player_total := some 1, enemy_total := some 10 },
    enemy_defeated_reward := some {}, active_combat := some true, suggested_actions := [] }

/-- C5, witness: the knockout scenario at max_health 30 - the effects drop
the player to exactly 0, and the turn ends reset to 30 with combat
cleared. -/
theorem C5_witness :
    ((turnApplied camC5 charC5 gzero oC5).1 ≤ 0) ∧
    ((process_free_action_free camC5 charC5 "swing" gzero oC5 none none).character.current_health
        = charC5.max_health ∧
     (process_free_action_free camC5 charC5 "swing" gzero oC5 none none).turn.combat_state
        = none ∧
     (process_free_action_free camC5 charC5 "swing" gzero oC5 none none).turn.active_combat
        = false) :=
  ⟨by decide, C5_player_knockout_resets camC5 charC5 "swing" gzero oC5 none none (by decide)⟩

/-! ### C6 - enemy defeat reward -/

/-- A prior turn: enemy at 1/20, combat active, player at full 30/30. -/
def turnC6 : Turn :=
  { turn_number := 1, user_input := "x", narrative := "y", effects := [],
    character_health := 30, enemy_health := 1,
    combat_state := some
      { player := { health := 30, max_health := some 30, attributes := attrs30, roll := 1 },
        enemy := { health := 1, max_health := some 20, attributes := attrs30, roll := 1 } },
    active_combat := true }

/-- A campaign continuing the combat of `turnC6`. -/
def camC6 : Campaign := { turns := [turnC6] }

/-- An oracle response whose totals 10 vs 1 land the killing blow: the
enemy takes the magnitude 3 and drops from 1 to 0. -/
def oC6 : Option LLMFreeOutcome := some
  { narrative := "slay", effects := [⟨EffectType.damage⟩], enemy_health := some 1,
    combat_state := some
      { player := { health := 30, max_health := some 30, attributes := attrs30, roll := 1 },
        enemy := { health := 1, max_health := some 20, attributes := attrs30, roll := 1 },
        chosen_attribute := some "strength", player_total := some 10, enemy_total := some 1 },
    enemy_defeated_reward := some {}, active_combat := some true, suggested_actions := [] }

/-- A parseable enemy-KO oracle response whose reward is present but empty
(no experience, no loot) - exactly the shape the repair misses. -/
def keC6 : Option LLMFreeOutcome := some
  { narrative := "the beast falls", effects := [], enemy_health := some 0,
    combat_state := none, enemy_defeated_reward := some {},
    active_combat := some false, suggested_actions := [] }

/-- C6, counterexample: the enemy's health reaches 0 after effect
application and the enemy-KO path runs, but the KO oracle returned a
present-yet-empty reward, which the `is None` repair does not touch - the
persisted turn carries the empty default reward. -/
theorem C6_counterexample :
    (turnApplied camC6 char30 gzero oC6).2.1 = 0 ∧
    (process_free_action_free camC6 char30 "slay" gzero oC6 none keC6).turn.enemy_health = 0 ∧
    (process_free_action_free camC6 char30 "slay" gzero oC6 none keC6).turn.enemy_defeated_reward
        = { gainedExperience := none, loot := [] } := by
  exact ⟨by decide, by decide, by decide⟩

/-- C6 (amended): when the enemy's health reaches 0 after effect
application (with the player alive and a combat state returned by the
oracle), the enemy-KO path supplies the non-empty default reward of 10
experience and a Gold Coin whenever the KO oracle call fails or its
response carries no reward; a present oracle reward is used as-is and may
be empty. -/
theorem C6_enemy_knockout_default_reward (cam : Campaign) (c : Character) (action : String)
    (g : Nat → Nat) (o kp ke : Option LLMFreeOutcome) (cso : CombatStateModel)
    (halive : ¬ (turnApplied cam c g o).1 ≤ 0)
    (hcs : turnCsOut0 cam c g o = some cso)
    (hdead : cso.enemy.health ≤ 0)
    (hke : ke = none ∨ ∃ r, ke = some r ∧ r.enemy_defeated_reward = none) :
    (process_free_action_free cam c action g o kp ke).turn.enemy_defeated_reward =
      { gainedExperience := some 10, loot := ["Gold Coin"] } := by
  have hk : turnKO cam c g o kp ke =
      ({ c with current_health := (turnApplied cam c g o).1 }, enemy_knocked_out ke,
        (enemy_knocked_out ke).combat_state) := by
    unfold turnKO
    rw [if_neg halive, hcs]
    simp [hdead]
  have hr : (enemy_knocked_out ke).enemy_defeated_reward =
      some { gainedExperience := some 10, loot := ["Gold Coin"] } := by
    rcases hke with rfl | ⟨r, rfl, hrew⟩
    · rfl
    · simp [enemy_knocked_out, hrew]
  simp [process_free_action_free, finalTurn, hk, hr]

/-- The synced-and-clamped oracle combat state of the C6 scenario: player
health written back as 30, enemy health written back as 0. -/
def csoC6 : CombatStateModel :=
  { player := { health := 30, max_health := some 30, attributes := attrs30, roll := 1 },
    enemy := { health := 0, max_health := some 20, attributes := attrs30, roll := 1 },
    chosen_attribute := some "strength", player_total := some 10, enemy_total := some 1 }

/-- C6, witness: the same killing blow with a failed KO oracle call - the
persisted reward is the non-empty default. -/
theorem C6_witness :
    (¬ (turnApplied camC6 char30 gzero oC6).1 ≤ 0) ∧
    (turnCsOut0 camC6 char30 gzero oC6 = some csoC6) ∧
    (csoC6.enemy.health ≤ 0) ∧
    (process_free_action_free camC6 char30 "slay" gzero oC6 none none).turn.enemy_defeated_reward
        = { gainedExperience := some 10, loot := ["Gold Coin"] } :=
  ⟨by decide, by decide, by decide,
   C6_enemy_knockout_default_reward camC6 char30 "slay" gzero oC6 none none csoC6
     (by decide) (by decide) (by decide) (Or.inl rfl)⟩

/-! ### C7 - health clamping -/

/-- One application step keeps the player health in `[0, max_health]` and
the enemy health at 0 or above, below its cap when one is set. -/
lemma applyEffectStep_bounds (c : Character) (cs : CombatStateModel) (pt et : Int)
    (st : Int × Int × List Effect) (e : LLMEffect)
    (hp0 : 0 ≤ st.1) (hp1 : st.1 ≤ c.max_health)
    (he0 : 0 ≤ st.2.1) (he1 : st.2.1 ≤ cs.enemy.max_health.getD st.2.1) :
    0 ≤ (applyEffectStep c cs pt et st e).1 ∧
    (applyEffectStep c cs pt et st e).1 ≤ c.max_health ∧
    0 ≤ (applyEffectStep c cs pt et st e).2.1 ∧
    (applyEffectStep c cs pt et st e).2.1 ≤
      cs.enemy.max_health.getD (applyEffectStep c cs pt et st e).2.1 := by
  by_cases hskip : (resolve_effect e.type cs.player cs.enemy pt et).target = "none" ∨
      (resolve_effect e.type cs.player cs.enemy pt et).value.getD 0 ≤ 0
  · simp only [applyEffectStep, if_pos hskip]
    exact ⟨hp0, hp1, he0, he1⟩
  · have hv : 0 < (resolve_effect e.type cs.player cs.enemy pt et).value.getD 0 := by
      rcases not_or.mp hskip with ⟨-, h⟩
      omega
    rcases hm : cs.enemy.max_health with _ | m <;>
      simp only [hm, Option.getD_none, Option.getD_some] at he1 ⊢ <;>
      simp only [applyEffectStep, if_neg hskip, hm] <;>
      split_ifs <;> dsimp only <;> omega

/-- The whole effect fold keeps both healths inside their bounds, starting
from any in-bounds accumulator. -/
lemma applyEffects_fold_bounds (c : Character) (cs : CombatStateModel) (pt et : Int)
    (effects : List LLMEffect) (st : Int × Int × List Effect)
    (hp0 : 0 ≤ st.1) (hp1 : st.1 ≤ c.max_health)
    (he0 : 0 ≤ st.2.1) (he1 : st.2.1 ≤ cs.enemy.max_health.getD st.2.1) :
    0 ≤ (effects.foldl (applyEffectStep c cs pt et) st).1 ∧
    (effects.foldl (applyEffectStep c cs pt et) st).1 ≤ c.max_health ∧
    0 ≤ (effects.foldl (applyEffectStep c cs pt et) st).2.1 ∧
    (effects.foldl (applyEffectStep c cs pt et) st).2.1 ≤
      cs.enemy.max_health.getD (effects.foldl (applyEffectStep c cs pt et) st).2.1 := by
  induction effects generalizing st with
  | nil => exact ⟨hp0, hp1, he0, he1⟩
  | cons e es ih =>
    have hstep := applyEffectStep_bounds c cs pt et st e hp0 hp1 he0 he1
    simpa [List.foldl] using
      ih (applyEffectStep c cs pt et st e) hstep.1 hstep.2.1 hstep.2.2.1 hstep.2.2.2

/-- The final sync-and-clamp leaves both snapshot healths at 0 or above,
below the respective cap when one is set (and nonnegative). -/
lemma syncAndClamp_bounds (csOut : CombatStateModel) (php ehp : Int)
    (hp : 0 ≤ php) (he : 0 ≤ ehp)
    (h5 : 0 ≤ csOut.player.max_health.getD 0)
    (h6 : 0 ≤ csOut.enemy.max_health.getD 0) :
    0 ≤ (syncAndClamp csOut php ehp).player.health ∧
    (syncAndClamp csOut php ehp).player.health ≤
      csOut.player.max_health.getD (syncAndClamp csOut php ehp).player.health ∧
    0 ≤ (syncAndClamp csOut php ehp).enemy.health ∧
    (syncAndClamp csOut php ehp).enemy.health ≤
      csOut.enemy.max_health.getD (syncAndClamp csOut php ehp).enemy.health := by
  rcases hmp : csOut.player.max_health with _ | mp <;>
    rcases hme : csOut.enemy.max_health with _ | me <;>
    rw [hmp] at h5 <;> rw [hme] at h6 <;>
    simp only [syncAndClamp, hmp, hme, Option.getD] at * <;>
    omega

/-- C7: for every sequence of effect intents applied during a turn, the
running player health stays in `[0, character.max_health]` and the running
enemy health stays at 0 or above and below the backend state's enemy cap
when one is set (every prefix of a turn's intent list is itself such a
sequence, so this covers the state after each application); and the
persisted snapshot produced by the final sync-and-clamp respects both of
its own caps.  Starting healths are assumed in bounds and caps
nonnegative, per the data model's standing invariant. -/
theorem C7_health_clamped (c : Character) (cs : CombatStateModel) (pt et : Int)
    (effects : List LLMEffect) (csOut : CombatStateModel)
    (h1 : 0 ≤ c.current_health) (h2 : c.current_health ≤ c.max_health)
    (h3 : 0 ≤ cs.enemy.health)
    (h4 : cs.enemy.health ≤ cs.enemy.max_health.getD cs.enemy.health)
    (h5 : 0 ≤ csOut.player.max_health.getD 0)
    (h6 : 0 ≤ csOut.enemy.max_health.getD 0) :
    (0 ≤ (applyEffects c cs pt et effects).1 ∧
     (applyEffects c cs pt et effects).1 ≤ c.max_health) ∧
    (0 ≤ (applyEffects c cs pt et effects).2.1 ∧
     (applyEffects c cs pt et effects).2.1 ≤
       cs.enemy.max_health.getD (applyEffects c cs pt et effects).2.1) ∧
    (0 ≤ (syncAndClamp csOut (applyEffects c cs pt et effects).1
            (applyEffects c cs pt et effects).2.1).player.health ∧
     (syncAndClamp csOut (applyEffects c cs pt et effects).1
            (applyEffects c cs pt et effects).2.1).player.health ≤
       csOut.player.max_health.getD
         (syncAndClamp csOut (applyEffects c cs pt et effects).1
            (applyEffects c cs pt et effects).2.1).player.health ∧
     0 ≤ (syncAndClamp csOut (applyEffects c cs pt et effects).1
            (applyEffects c cs pt et effects).2.1).enemy.health ∧
     (syncAndClamp csOut (applyEffects c cs pt et effects).1
            (applyEffects c cs pt et effects).2.1).enemy.health ≤
       csOut.enemy.max_health.getD
         (syncAndClamp csOut (applyEffects c cs pt et effects).1
            (applyEffects c cs pt et effects).2.1).enemy.health) := by
  have hfold := applyEffects_fold_bounds c cs pt et effects
    (c.current_health, cs.enemy.health, []) h1 h2 h3 h4
  have hsync := syncAndClamp_bounds csOut (applyEffects c cs pt et effects).1
    (applyEffects c cs pt et effects).2.1 hfold.1 hfold.2.2.1 h5 h6
  exact ⟨⟨hfold.1, hfold.2.1⟩, ⟨hfold.2.2.1, hfold.2.2.2⟩, hsync⟩

/-- The character of the C7 witness scenario (20/30). -/
def cW7 : Character :=
  { name := "Cy", attributes := attrSet30, max_health := 30, current_health := 20 }

/-- The backend combat state of the C7 witness scenario. -/
def csW7 : CombatStateModel :=
  { player := { health := 20, max_health := some 30, attributes := attrs30, roll := 5 },
    enemy := { health := 15, max_health := some 20, attributes := attrs30, roll := 5 } }

/-- The oracle-echoed combat state of the C7 witness scenario (its caps 25
and 18 differ from the backend's on purpose). -/
def csOutW7 : CombatStateModel :=
  { player := { health := 7, max_health := some 25, attributes := attrs30, roll := 9 },
    enemy := { health := 9, max_health := some 18, attributes := attrs30, roll := 9 } }

/-- Two intents of the C7 witness scenario: a damage then a heal. -/
def effsW7 : List LLMEffect := [⟨EffectType.damage⟩, ⟨EffectType.heal⟩]

/-- C7, witness: a winning damage-then-heal turn from 20/30 against a 15/20
enemy keeps every health inside its bounds. -/
theorem C7_witness :
    (0 ≤ cW7.current_health ∧ cW7.current_health ≤ cW7.max_health ∧
     0 ≤ csW7.enemy.health ∧
     csW7.enemy.health ≤ csW7.enemy.max_health.getD csW7.enemy.health ∧
     0 ≤ csOutW7.player.max_health.getD 0 ∧
     0 ≤ csOutW7.enemy.max_health.getD 0) ∧
    ((0 ≤ (applyEffects cW7 csW7 9 2 effsW7).1 ∧
      (applyEffects cW7 csW7 9 2 effsW7).1 ≤ cW7.max_health) ∧
     (0 ≤ (applyEffects cW7 csW7 9 2 effsW7).2.1 ∧
      (applyEffects cW7 csW7 9 2 effsW7).2.1 ≤
        csW7.enemy.max_health.getD (applyEffects cW7 csW7 9 2 effsW7).2.1) ∧
     (0 ≤ (syncAndClamp csOutW7 (applyEffects cW7 csW7 9 2 effsW7).1
             (applyEffects cW7 csW7 9 2 effsW7).2.1).player.health ∧
      (syncAndClamp csOutW7 (applyEffects cW7 csW7 9 2 effsW7).1
             (applyEffects cW7 csW7 9 2 effsW7).2.1).player.health ≤
        csOutW7.player.max_health.getD
          (syncAndClamp csOutW7 (applyEffects cW7 csW7 9 2 effsW7).1
             (applyEffects cW7 csW7 9 2 effsW7).2.1).player.health ∧
      0 ≤ (syncAndClamp csOutW7 (applyEffects cW7 csW7 9 2 effsW7).1
             (applyEffects cW7 csW7 9 2 effsW7).2.1).enemy.health ∧
      (syncAndClamp csOutW7 (applyEffects cW7 csW7 9 2 effsW7).1
             (applyEffects cW7 csW7 9 2 effsW7).2.1).enemy.health ≤
        csOutW7.enemy.max_health.getD
          (syncAndClamp csOutW7 (applyEffects cW7 csW7 9 2 effsW7).1
             (applyEffects cW7 csW7 9 2 effsW7).2.1).enemy.health)) :=
  ⟨⟨by decide, by decide, by decide, by decide, by decide, by decide⟩,
   C7_health_clamped cW7 csW7 9 2 effsW7 csOutW7
     (by decide) (by decide) (by decide) (by decide) (by decide) (by decide)⟩

/-! ### C8 and C10 - the player-health cheat -/

/-- The player cheat never changes the number of turns (no turn is created,
none is deleted). -/
lemma cheat_player_preserves_turn_count (cam : Campaign) (c : Character) :
    (cheat_set_player_health_to_one cam c).1.turns.length = cam.turns.length := by
  unfold cheat_set_player_health_to_one
  rcases hl : cam.turns.getLast? with _ | lt
  · rfl
  · have hne : cam.turns ≠ [] := by
      intro h
      rw [h] at hl
      simp at hl
    have hpos : 0 < cam.turns.length := List.length_pos.mpr hne
    by_cases hb : lt.active_combat <;> (simp [hb, List.length_dropLast]; try omega)

/-- The player cheat is the identity when there are no turns. -/
lemma cheat_player_noop_of_no_turns (cam : Campaign) (c : Character)
    (h : cam.turns = []) : cheat_set_player_health_to_one cam c = (cam, c) := by
  unfold cheat_set_player_health_to_one
  rw [h]
  rfl

/-- The player cheat is the identity when the last turn has no active
combat. -/
lemma cheat_player_noop_of_inactive (cam : Campaign) (c : Character) (lt : Turn)
    (hl : cam.turns.getLast? = some lt) (hb : lt.active_combat = false) :
    cheat_set_player_health_to_one cam c = (cam, c) := by
  unfold cheat_set_player_health_to_one
  rw [hl]
  simp [hb]

/-- With active combat, the player cheat patches exactly the three player
health fields. -/
lemma cheat_player_of_active (cam : Campaign) (c : Character) (lt : Turn)
    (hl : cam.turns.getLast? = some lt) (hb : lt.active_combat = true) :
    cheat_set_player_health_to_one cam c =
      ({ turns := cam.turns.dropLast ++
          [{ lt with
              character_health := 1,
              combat_state := lt.combat_state.map
                (fun cs => { cs with player := { cs.player with health := 1 } }) }] },
       { c with current_health := 1 }) := by
  unfold cheat_set_player_health_to_one
  rw [hl]
  simp [hb]

/-- C8: the player-health cheat never creates or removes a turn; it is a
complete no-op (campaign and character unchanged) when there are no turns
or the last turn has no active combat; and during active combat it
rewrites the state to exactly: the character with `current_health := 1`,
and the last turn with `character_health := 1` and the player health of
its snapshot (when one exists) set to 1 - every other field, including the
enemy side, the flat enemy health and all earlier turns, carried over
unchanged. -/
theorem C8_cheat_frame (cam : Campaign) (c : Character) :
    ((cheat_set_player_health_to_one cam c).1.turns.length = cam.turns.length) ∧
    (cam.turns = [] → cheat_set_player_health_to_one cam c = (cam, c)) ∧
    (∀ lt, cam.turns.getLast? = some lt → lt.active_combat = false →
        cheat_set_player_health_to_one cam c = (cam, c)) ∧
    (∀ lt, cam.turns.getLast? = some lt → lt.active_combat = true →
        cheat_set_player_health_to_one cam c =
          ({ turns := cam.turns.dropLast ++
              [{ lt with
                  character_health := 1,
                  combat_state := lt.combat_state.map
                    (fun cs => { cs with player := { cs.player with health := 1 } }) }] },
           { c with current_health := 1 })) :=
  ⟨cheat_player_preserves_turn_count cam c,
   fun h => cheat_player_noop_of_no_turns cam c h,
   fun lt hl hb => cheat_player_noop_of_inactive cam c lt hl hb,
   fun lt hl hb => cheat_player_of_active cam c lt hl hb⟩

/-- An earlier, finished turn of the C8 witness campaign. -/
def turnC8a : Turn :=
  { turn_number := 1, user_input := "go", narrative := "n1", effects := [],
    character_health := 9, enemy_health := 8, combat_state := none,
    active_combat := false }

/-- The last turn of the C8 witness campaign: active combat, player 9/30
against an enemy 8/12. -/
def turnC8b : Turn :=
  { turn_number := 2, user_input := "fight", narrative := "n2", effects := [],
    character_health := 9, enemy_health := 8,
    combat_state := some
      { player := { health := 9, max_health := some 30, attributes := attrs30, roll := 4 },
        enemy := { health := 8, max_health := some 12, attributes := attrs30, roll := 6 } },
    active_combat := true }

/-- The two-turn campaign of the C8 witness. -/
def camC8 : Campaign := { turns := [turnC8a, turnC8b] }

/-- The character of the C8 witness (9/30). -/
def charC8 : Character :=
  { name := "Dor", attributes := attrSet30, max_health := 30, current_health := 9 }

/-- C8, witness: during the active combat of `camC8` the cheat rewrites
exactly the three player health fields; the enemy side (health 8 in both
snapshot and flat field) and the earlier turn survive unchanged. -/
theorem C8_witness :
    (camC8.turns.getLast? = some turnC8b) ∧
    (turnC8b.active_combat = true) ∧
    cheat_set_player_health_to_one camC8 charC8 =
      ({ turns := camC8.turns.dropLast ++
          [{ turnC8b with
              character_health := 1,
              combat_state := turnC8b.combat_state.map
                (fun cs => { cs with player := { cs.player with health := 1 } }) }] },
       { charC8 with current_health := 1 }) :=
  ⟨by decide, by decide,
   (C8_cheat_frame camC8 charC8).2.2.2 turnC8b (by decide) (by decide)⟩

/-- C10: the `reducemylife` branch always reports `character_health = 1`
and `turn_number` equal to the current turn count, even when the cheat was
a no-op (no turns, or no active combat on the last turn), in which case
the persisted character is untouched - so the reported health can differ
from the persisted one. -/
theorem C10_cheat_branch_report (cam : Campaign) (c : Character) :
    (reducemylife_branch cam c).out.character_health = 1 ∧
    (reducemylife_branch cam c).out.turn_number = cam.turns.length ∧
    (cam.turns = [] → (reducemylife_branch cam c).character = c) ∧
    (∀ lt, cam.turns.getLast? = some lt → lt.active_combat = false →
        (reducemylife_branch cam c).character = c) := by
  refine ⟨rfl, rfl, fun h => ?_, fun lt hl hb => ?_⟩
  · simp [reducemylife_branch, cheat_player_noop_of_no_turns cam c h]
  · simp [reducemylife_branch, cheat_player_noop_of_inactive cam c lt hl hb]

/-- The single, combat-free turn of the C10 witness campaign. -/
def turnC10 : Turn :=
  { turn_number := 1, user_input := "look", narrative := "quiet", effects := [],
    character_health := 7, enemy_health := 0, combat_state := none,
    active_combat := false }

/-- The one-turn campaign of the C10 witness. -/
def camC10 : Campaign := { turns := [turnC10] }

/-- The character of the C10 witness, persisted at 7 health. -/
def charC10 : Character :=
  { name := "Eli", attributes := attrSet30, max_health := 30, current_health := 7 }

/-- C10, witness: with no active combat the branch still reports health 1
and the current turn count, while the persisted character stays at 7. -/
theorem C10_witness :
    (reducemylife_branch camC10 charC10).out.character_health = 1 ∧
    (reducemylife_branch camC10 charC10).out.turn_number = 1 ∧
    (camC10.turns.getLast? = some turnC10) ∧
    (turnC10.active_combat = false) ∧
    (reducemylife_branch camC10 charC10).character = charC10 ∧
    charC10.current_health = 7 :=
  ⟨(C10_cheat_branch_report camC10 charC10).1,
   ((C10_cheat_branch_report camC10 charC10).2.1).trans (by decide),
   by decide, by decide,
   (C10_cheat_branch_report camC10 charC10).2.2.2 turnC10 (by decide) (by decide),
   by decide⟩

end RPG
